import Mathlib

/-!
# Verification of the Meross smart-outlet plugin core

Shallow embedding of `src/meross-cloud-manager.js` and
`src/simple-mqtt-client.js` (cloud session manager, login cache and
rate-limit block, global HTTP throttle, connect/retry policy, toggle
commands, disconnect sequence, and the MQTT remaining-length codec),
together with theorems checking the specification's claims against it.

Machine integers are modelled as `Nat`: every JavaScript number involved
(timestamps, counters, byte values) stays far below 2^53, where JS
arithmetic is exact.  JavaScript's `a - b` on timestamps only occurs in
contexts where the code compares the difference against a positive bound
and the subtraction of a smaller value, so truncated `Nat` subtraction
agrees with the source everywhere it is used (noted at each site).
Fallible operations return `Except String` mirroring thrown `Error`
messages.
-/

namespace MerossPlugin

/-! ## MQTT remaining-length codec (`simple-mqtt-client.js`, `_encodeLength`)

The source:
```js
_encodeLength(length) {
  const bytes = [];
  do {
    let byte = length % 128;
    length = Math.floor(length / 128);
    if (length > 0) { byte |= 0x80; }
    bytes.push(byte);
  } while (length > 0);
  return Buffer.from(bytes);
}
```
A do-while loop that always emits at least one byte; `byte | 0x80` on a
value `< 128` is `byte + 128`.
-/

def encodeLength (n : Nat) : List Nat :=
  if h : n / 128 > 0 then
    (n % 128 + 128) :: encodeLength (n / 128)
  else
    [n % 128]
decreasing_by
  exact Nat.div_lt_self (Nat.lt_of_lt_of_le h (Nat.div_le_self n 128)) (by norm_num)

/-- Standard little-endian base-128 varint decoder: 7 significant bits per
byte, later bytes are higher order.  (The continuation bit is the high bit;
`% 128` strips it.) -/
def decodeLength : List Nat → Nat
  | [] => 0
  | b :: rest => b % 128 + 128 * decodeLength rest

theorem decodeLength_encodeLength (n : Nat) :
    decodeLength (encodeLength n) = n := by
  induction n using Nat.strong_induction_on with
  | _ n ih =>
    rw [encodeLength]
    split
    · next h =>
      have hlt : n / 128 < n :=
        Nat.div_lt_self (Nat.lt_of_lt_of_le h (Nat.div_le_self n 128)) (by norm_num)
      simp only [decodeLength, ih _ hlt]
      omega
    · next h =>
      have hn : n < 128 := by
        rcases Nat.lt_or_ge n 128 with h128 | h128
        · exact h128
        · exact absurd (Nat.div_pos h128 (by norm_num)) h
      simp [decodeLength, Nat.mod_eq_of_lt hn]

/-- Well-formedness of a little-endian base-128 varint byte sequence: at
least one byte; every byte except the last has its continuation
(high) bit set and is a byte value; the last byte has the high bit clear. -/
def varintShape : List Nat → Bool
  | [] => false
  | [b] => decide (b < 128)
  | b :: rest => decide (128 ≤ b ∧ b < 256) && varintShape rest

theorem varintShape_encodeLength (n : Nat) :
    varintShape (encodeLength n) = true := by
  induction n using Nat.strong_induction_on with
  | _ n ih =>
    rw [encodeLength]
    split
    · next h =>
      have hlt : n / 128 < n :=
        Nat.div_lt_self (Nat.lt_of_lt_of_le h (Nat.div_le_self n 128)) (by norm_num)
      have hrest := ih _ hlt
      have hmod : n % 128 < 128 := Nat.mod_lt _ (by norm_num)
      cases hr : encodeLength (n / 128) with
      | nil => rw [hr] at hrest; simp [varintShape] at hrest
      | cons b t =>
        rw [hr] at hrest
        simp only [varintShape, Bool.and_eq_true, decide_eq_true_eq]
        exact ⟨⟨by omega, by omega⟩, hrest⟩
    · next h =>
      have hmod : n % 128 < 128 := Nat.mod_lt _ (by norm_num)
      simp [varintShape, hmod]

/-- C7: the remaining-length varint encoder maps 0 to [0x00], 127 to [0x7F],
128 to [0x80, 0x01], 16383 to [0xFF, 0x7F]; every element of an encoding is
a byte whose high (continuation) bit is set exactly when more bytes follow;
and decoding the encoding yields the original value for every natural
number (in particular for all values up to 2,097,151). -/
theorem C7_encodeLength_varint :
    encodeLength 0 = [0x00] ∧
    encodeLength 127 = [0x7F] ∧
    encodeLength 128 = [0x80, 0x01] ∧
    encodeLength 16383 = [0xFF, 0x7F] ∧
    encodeLength 2097151 = [0xFF, 0xFF, 0x7F] ∧
    (∀ n : Nat, varintShape (encodeLength n) = true) ∧
    (∀ n : Nat, decodeLength (encodeLength n) = n) := by
  refine ⟨?_, ?_, ?_, ?_, ?_, varintShape_encodeLength, decodeLength_encodeLength⟩ <;>
    · rw [encodeLength]
      norm_num
      try (rw [encodeLength]; norm_num)
      try (rw [encodeLength]; norm_num)

/-! ## Data model (`meross-cloud-manager.js`)

Instance fields of `MerossCloudManager` and the transport client.  `null`
JavaScript fields become `Option`; `devices[i].channels` may be absent
(`this.device.channels?.length || 2`), hence `Option (List Nat)` where the
list entries stand for the channel objects (only the length is consumed by
the code under verification). -/

structure MqttClient where
  connected : Bool
deriving DecidableEq, Repr

structure Device where
  uuid : String
  devName : String
  deviceType : String
  channels : Option (List Nat)
deriving DecidableEq, Repr

structure Manager where
  token : Option String
  key : Option String
  userId : Option String
  mqttDomain : Option String
  baseUrl : String
  device : Option Device
  mqttClient : Option MqttClient
  connected : Bool
  reconnectAttempts : Nat
  clientResponseTopic : String
deriving DecidableEq, Repr

/-- A fresh manager as built by the constructor (`baseUrl` preset, all
credentials `null`, `connected = false`, `reconnectAttempts = 0`).
`clientResponseTopic` is `undefined` until `_connectMqtt` runs; modelled as
the empty string, never read before being set on the paths verified here. -/
def Manager.init : Manager :=
  { token := none, key := none, userId := none, mqttDomain := none,
    baseUrl := "https://iotx-us.meross.com", device := none,
    mqttClient := none, connected := false, reconnectAttempts := 0,
    clientResponseTopic := "" }

/-- `isConnected()` — `this.connected && this.device !== null && this.token !== null`. -/
def Manager.isConnected (m : Manager) : Bool :=
  m.connected && m.device.isSome && m.token.isSome

/-! ## Device command path (`_sendDeviceCommand`, `publish`, `turnOn`, `turnOff`)

The Meross command message published over MQTT.  The JS object
`{header: {from, messageId, method, namespace, timestamp, sign,
payloadVersion}, payload: {togglex: {channel, onoff}}}` is modelled
structurally; `publish` serializes it as UTF-8 JSON, which is injective on
this record so the structural model is faithful for the claims checked. -/

structure TogglexPayload where
  channel : Nat
  onoff : Nat
deriving DecidableEq, Repr

structure CommandPayload where
  togglex : TogglexPayload
deriving DecidableEq, Repr

structure CommandHeader where
  msgFrom : String
  messageId : String
  method : String
  nspace : String
  timestamp : Nat
  sign : String
  payloadVersion : Nat
deriving DecidableEq, Repr

structure CommandMessage where
  header : CommandHeader
  payload : CommandPayload
deriving DecidableEq, Repr

/-- One wire frame written by `SimpleMqttClient.publish`: fixed header byte
`0x30` (PUBLISH, QoS 0), length-prefixed topic, JSON message body. -/
structure PublishFrame where
  fixedHeader : Nat
  topic : String
  message : CommandMessage
deriving DecidableEq, Repr

/-- `SimpleMqttClient.publish(topic, message)`: throws when not connected,
otherwise writes exactly one QoS-0 PUBLISH frame (first byte `0x30`) and
returns without reading anything from the socket. -/
def mqttPublish (c : MqttClient) (topic : String) (msg : CommandMessage) :
    Except String PublishFrame :=
  if c.connected then
    .ok { fixedHeader := 0x30, topic := topic, message := msg }
  else
    .error "Not connected to MQTT broker"

/-- `_sendDeviceCommand(namespace, payload)`.  Ambient effects are passed
explicitly: `h` is MD5 as a function on strings, `messageId` the 16 random
bytes in hex, `timestamp` the current epoch seconds, and `reconnect` the
outcome `_connectMqtt()` would have (a connected client on success).  When
the client is absent or not connected the code first attempts the
reconnect; failures become
`Failed to reconnect to MQTT broker: <msg>`.  On success exactly one frame
is published to `/appliance/<uuid>/subscribe` and the promise resolves
without waiting for any broker reply (QoS 0, fire and forget) — hence no
broker-response input appears. -/
def buildCommandMessage (m1 : Manager) (h : String → String)
    (messageId : String) (timestamp : Nat) (ns : String)
    (pl : CommandPayload) : CommandMessage :=
  { header :=
      { msgFrom := m1.clientResponseTopic,
        messageId := messageId,
        method := "SET",
        nspace := ns,
        timestamp := timestamp,
        sign := h (messageId ++ m1.key.getD "" ++ toString timestamp),
        payloadVersion := 1 },
    payload := pl }

/-- The body of `_sendDeviceCommand` after the MQTT session is ensured:
build the signed message and publish it to the device topic. -/
def publishCommand (m1 : Manager) (h : String → String)
    (messageId : String) (timestamp : Nat) (ns : String)
    (pl : CommandPayload) : Except String (Manager × List PublishFrame) :=
  let msg := buildCommandMessage m1 h messageId timestamp ns pl
  let topic := "/appliance/" ++ (m1.device.map Device.uuid).getD "" ++ "/subscribe"
  match m1.mqttClient with
  | some c =>
    match mqttPublish c topic msg with
    | .ok f => .ok (m1, [f])
    | .error e => .error e
  | none => .error "Not connected to MQTT broker"

def sendDeviceCommand (m : Manager) (h : String → String)
    (messageId : String) (timestamp : Nat) (ns : String)
    (pl : CommandPayload) (reconnect : Except String MqttClient) :
    Except String (Manager × List PublishFrame) :=
  match m.mqttClient with
  | some c =>
    if c.connected then publishCommand m h messageId timestamp ns pl
    else
      match reconnect with
      | .ok c1 => publishCommand { m with mqttClient := some c1 } h messageId timestamp ns pl
      | .error e => .error ("Failed to reconnect to MQTT broker: " ++ e)
  | none =>
    match reconnect with
    | .ok c1 => publishCommand { m with mqttClient := some c1 } h messageId timestamp ns pl
    | .error e => .error ("Failed to reconnect to MQTT broker: " ++ e)

/-- `turnOn(channel)`: guard on `isConnected()`, then send
`Appliance.Control.ToggleX` with `{togglex: {channel, onoff: 1}}`; on any
error from the send, set `this.connected = false` and rethrow.  Returns
(result, post-state, frames written). -/
def turnOn (m : Manager) (h : String → String) (messageId : String)
    (timestamp : Nat) (reconnect : Except String MqttClient) (channel : Nat) :
    Except String Unit × Manager × List PublishFrame :=
  if m.isConnected then
    match sendDeviceCommand m h messageId timestamp "Appliance.Control.ToggleX"
        { togglex := { channel := channel, onoff := 1 } } reconnect with
    | .ok (m1, fs) => (.ok (), m1, fs)
    | .error e => (.error e, { m with connected := false }, [])
  else
    (.error "Not connected to Meross device", m, [])

/-- `turnOff(channel)`: identical to `turnOn` with `onoff: 0`. -/
def turnOff (m : Manager) (h : String → String) (messageId : String)
    (timestamp : Nat) (reconnect : Except String MqttClient) (channel : Nat) :
    Except String Unit × Manager × List PublishFrame :=
  if m.isConnected then
    match sendDeviceCommand m h messageId timestamp "Appliance.Control.ToggleX"
        { togglex := { channel := channel, onoff := 0 } } reconnect with
    | .ok (m1, fs) => (.ok (), m1, fs)
    | .error e => (.error e, { m with connected := false }, [])
  else
    (.error "Not connected to Meross device", m, [])

/-- C8: `turnOn(channel)` on a connected session (manager connected with a
device and token, MQTT client present and connected) writes exactly one
QoS-0 PUBLISH frame (fixed header byte 0x30) to
`/appliance/<deviceUuid>/subscribe` whose message payload is
`togglex = {channel, onoff := 1}`, returns success, and leaves the manager
unchanged.  The embedding of the command path consumes no broker-response
input at all, so the call cannot wait on any broker reply or
acknowledgment. -/
theorem C8_turnOn_publishes_one_frame (m : Manager) (h : String → String)
    (messageId : String) (timestamp : Nat)
    (reconnect : Except String MqttClient) (channel : Nat)
    (c : MqttClient) (d : Device)
    (hc : m.mqttClient = some c) (hcc : c.connected = true)
    (hic : m.isConnected = true) (hd : m.device = some d) :
    turnOn m h messageId timestamp reconnect channel =
      (.ok (), m,
        [{ fixedHeader := 0x30,
           topic := "/appliance/" ++ d.uuid ++ "/subscribe",
           message :=
             { header :=
                 { msgFrom := m.clientResponseTopic,
                   messageId := messageId,
                   method := "SET",
                   nspace := "Appliance.Control.ToggleX",
                   timestamp := timestamp,
                   sign := h (messageId ++ m.key.getD "" ++ toString timestamp),
                   payloadVersion := 1 },
               payload := { togglex := { channel := channel, onoff := 1 } } } }]) := by
  simp [turnOn, hic, sendDeviceCommand, hc, hcc, publishCommand,
    buildCommandMessage, mqttPublish, hd]

/-- A fully connected sample manager used as concrete input by witnesses. -/
def sampleDevice : Device :=
  { uuid := "dev1", devName := "Plug", deviceType := "mss425",
    channels := some [0, 1, 2] }

/-- Sample connected manager (device found, MQTT up). -/
def sampleConnected : Manager :=
  { token := some "tok", key := some "k", userId := some "u",
    mqttDomain := some "mqtt-us-4.meross.com",
    baseUrl := "https://iotx-us.meross.com",
    device := some sampleDevice,
    mqttClient := some { connected := true }, connected := true,
    reconnectAttempts := 0, clientResponseTopic := "/app/u-a/subscribe" }

/-- Closed witness for `C8_turnOn_publishes_one_frame`. -/
theorem C8_turnOn_publishes_one_frame_witness :
    ∃ fr : PublishFrame,
      turnOn sampleConnected (fun s => s) "mid" 1700000000 (.error "unused") 1 =
        (.ok (), sampleConnected, [fr]) :=
  ⟨_, C8_turnOn_publishes_one_frame sampleConnected (fun s => s) "mid"
      1700000000 (.error "unused") 1 { connected := true } sampleDevice
      rfl rfl rfl rfl⟩

/-- C10: whenever `turnOn` or `turnOff` propagates an error, the resulting
manager reports `isConnected() = false`; moreover when the manager was
connected at entry the error path has explicitly set `connected := false`
before rethrowing. -/
theorem C10_failed_toggle_disconnects (m : Manager) (h : String → String)
    (messageId : String) (timestamp : Nat)
    (reconnect : Except String MqttClient) (channel : Nat)
    (e : String) (m' : Manager) (fs : List PublishFrame) :
    (turnOn m h messageId timestamp reconnect channel = (.error e, m', fs) →
      m'.isConnected = false ∧ (m.isConnected = true → m'.connected = false)) ∧
    (turnOff m h messageId timestamp reconnect channel = (.error e, m', fs) →
      m'.isConnected = false ∧ (m.isConnected = true → m'.connected = false)) := by
  constructor <;>
  · intro hrun
    by_cases hic : m.isConnected = true
    · first
        | rw [turnOn, if_pos hic] at hrun
        | rw [turnOff, if_pos hic] at hrun
      split at hrun
      · simp_all
      · simp only [Prod.mk.injEq] at hrun
        obtain ⟨-, hm, -⟩ := hrun
        subst hm
        exact ⟨by simp [Manager.isConnected], fun _ => rfl⟩
    · first
        | rw [turnOn, if_neg hic] at hrun
        | rw [turnOff, if_neg hic] at hrun
      simp only [Prod.mk.injEq] at hrun
      obtain ⟨-, hm, -⟩ := hrun
      subst hm
      exact ⟨by simpa using hic, fun hc => absurd hc hic⟩

/-- A manager that is connected but whose MQTT client is absent; any toggle
with a failing reconnect outcome errors. -/
def sampleNoMqtt : Manager :=
  { sampleConnected with mqttClient := none }

/-- Post-state of a failed toggle on `sampleNoMqtt`. -/
def sampleNoMqttOff : Manager :=
  { sampleNoMqtt with connected := false }

/-- Closed witness for `C10_failed_toggle_disconnects`: a connected manager
whose MQTT client is gone and whose reconnect fails; the toggle errors and
leaves `isConnected() = false`. -/
theorem C10_failed_toggle_disconnects_witness :
    (turnOn sampleNoMqtt (fun s => s) "mid" 0 (.error "down") 1).2.1.isConnected
      = false := by
  have hm : turnOn sampleNoMqtt (fun s => s) "mid" 0 (.error "down") 1 =
      (Except.error "Failed to reconnect to MQTT broker: down",
        sampleNoMqttOff, []) := by rfl
  have hres :=
    ((C10_failed_toggle_disconnects sampleNoMqtt (fun s => s) "mid" 0
        (.error "down") 1 "Failed to reconnect to MQTT broker: down"
        sampleNoMqttOff []).1 hm).1
  rw [hm]
  exact hres

/-! ## Disconnect sequence (`disconnect`)

`disconnect()` is a try/catch whose body wraps every fallible step in its
own try/catch: the per-channel `turnOff` calls, the MQTT client
`disconnect()`, and the logout request each absorb their errors (logged
only), so the remaining steps always run and the whole method resolves
normally.  The embedding makes the absorbed errors visible as recorded
actions and is a total function — mirroring that no throw can escape. -/

/-- Ambient inputs of one `turnOff` call inside the disconnect loop. -/
structure ToggleEnv where
  messageId : String
  timestamp : Nat
  reconnect : Except String MqttClient

/-- Observable steps taken by `disconnect()`. -/
inductive DisconnectAction where
  | offAttempt (channel : Nat) (succeeded : Bool)
  | mqttDisconnectCall
  | logoutAttempt (succeeded : Bool)
deriving DecidableEq, Repr

/-- `this.device.channels?.length || 2` — absent channel list, or a list of
length 0 (falsy in JS), both fall back to 2. -/
def channelCount (d : Device) : Nat :=
  match d.channels with
  | some l => if l.length = 0 then 2 else l.length
  | none => 2

/-- The failsafe loop `for (let i = 1; i <= numChannels; i++) { try
turnOff(i) catch log }`, with `k` channels left starting at channel `i`.
Each attempt's error is caught; the (possibly mutated) manager is threaded
on. -/
def offLoop (h : String → String) (env : Nat → ToggleEnv) :
    Nat → Nat → Manager → Manager × List DisconnectAction
  | _, 0, m => (m, [])
  | i, k + 1, m =>
    let r := turnOff m h (env i).messageId (env i).timestamp (env i).reconnect i
    let ok := match r.1 with | .ok _ => true | .error _ => false
    let rest := offLoop h env (i + 1) k r.2.1
    (rest.1, .offAttempt i ok :: rest.2)

/-- Stage 1 of `disconnect()`: the guarded failsafe off-loop
(`if (this.device && this.connected)`). -/
def disconnectOffs (m : Manager) (h : String → String)
    (env : Nat → ToggleEnv) : Manager × List DisconnectAction :=
  match m.device with
  | some d => if m.connected then offLoop h env 1 (channelCount d) m else (m, [])
  | none => (m, [])

/-- Stage 2 of `disconnect()`: `if (this.mqttClient) try mqttClient.disconnect()`,
which marks the client closed. -/
def disconnectMqtt (m : Manager) : Manager × List DisconnectAction :=
  match m.mqttClient with
  | some c =>
    ({ m with mqttClient := some { c with connected := false } },
      [DisconnectAction.mqttDisconnectCall])
  | none => (m, [])

/-- Stage 3 of `disconnect()`: `if (this.token) try logout` (result ignored). -/
def disconnectLogout (m : Manager) (logoutOk : Bool) : List DisconnectAction :=
  match m.token with
  | some _ => [DisconnectAction.logoutAttempt logoutOk]
  | none => []

/-- `disconnect()`: failsafe off-commands for channels `1..numChannels`
(only when a device is selected and `connected`), MQTT client disconnect
(when a client exists), logout request (when a token exists, result
ignored), then clear all instance state.  Total: no error escapes. -/
def disconnect (m : Manager) (h : String → String) (env : Nat → ToggleEnv)
    (logoutOk : Bool) : Manager × List DisconnectAction :=
  let s1 := disconnectOffs m h env
  let s2 := disconnectMqtt s1.1
  let s3 := disconnectLogout s2.1 logoutOk
  ({ s2.1 with connected := false, device := none, token := none,
               key := none, userId := none, mqttClient := none },
    s1.2 ++ s2.2 ++ s3)

theorem publishCommand_ok (m1 m2 : Manager) (h : String → String)
    (mid : String) (ts : Nat) (ns : String) (pl : CommandPayload)
    (fs : List PublishFrame)
    (heq : publishCommand m1 h mid ts ns pl = .ok (m2, fs)) : m2 = m1 := by
  rw [publishCommand] at heq
  split at heq
  · split at heq
    · simp only [Except.ok.injEq, Prod.mk.injEq] at heq
      exact heq.1.symm
    · exact absurd heq (by simp)
  · exact absurd heq (by simp)

theorem sendDeviceCommand_ok_token (m m2 : Manager) (h : String → String)
    (mid : String) (ts : Nat) (ns : String) (pl : CommandPayload)
    (rec : Except String MqttClient) (fs : List PublishFrame)
    (heq : sendDeviceCommand m h mid ts ns pl rec = .ok (m2, fs)) :
    m2.token = m.token := by
  rw [sendDeviceCommand.eq_def] at heq
  split at heq
  · split at heq
    · rw [publishCommand_ok _ _ _ _ _ _ _ _ heq]
    · split at heq
      · rw [publishCommand_ok _ _ _ _ _ _ _ _ heq]
      · exact absurd heq (by simp)
  · split at heq
    · rw [publishCommand_ok _ _ _ _ _ _ _ _ heq]
    · exact absurd heq (by simp)

theorem turnOff_token_eq (m : Manager) (h : String → String) (mid : String)
    (ts : Nat) (rec : Except String MqttClient) (ch : Nat) :
    (turnOff m h mid ts rec ch).2.1.token = m.token := by
  rw [turnOff]
  split
  · split <;> rename_i heq
    · exact sendDeviceCommand_ok_token _ _ _ _ _ _ _ _ _ heq
    · rfl
  · rfl

theorem offLoop_token_eq (h : String → String) (env : Nat → ToggleEnv) :
    ∀ (k i : Nat) (m : Manager), (offLoop h env i k m).1.token = m.token := by
  intro k
  induction k with
  | zero => intro i m; rfl
  | succ k ih =>
    intro i m
    rw [offLoop]
    dsimp only
    rw [ih, turnOff_token_eq]

theorem offLoop_covers (h : String → String) (env : Nat → ToggleEnv) :
    ∀ (k i : Nat) (m : Manager) (j : Nat), i ≤ j → j < i + k →
      ∃ ok, DisconnectAction.offAttempt j ok ∈ (offLoop h env i k m).2 := by
  intro k
  induction k with
  | zero => intro i m j h1 h2; omega
  | succ k ih =>
    intro i m j h1 h2
    rw [offLoop]
    dsimp only
    rcases Nat.eq_or_lt_of_le h1 with hj | hj
    · exact ⟨_, by rw [← hj]; exact List.mem_cons_self _ _⟩
    · obtain ⟨ok, hmem⟩ := ih (i + 1) _ j hj (by omega)
      exact ⟨ok, List.mem_cons_of_mem _ hmem⟩

theorem sendDeviceCommand_ok_mqttSome (m m2 : Manager) (h : String → String)
    (mid : String) (ts : Nat) (ns : String) (pl : CommandPayload)
    (rec : Except String MqttClient) (fs : List PublishFrame)
    (hm : m.mqttClient.isSome = true)
    (heq : sendDeviceCommand m h mid ts ns pl rec = .ok (m2, fs)) :
    m2.mqttClient.isSome = true := by
  rw [sendDeviceCommand.eq_def] at heq
  split at heq
  · split at heq
    · rw [publishCommand_ok _ _ _ _ _ _ _ _ heq]; exact hm
    · split at heq
      · rw [publishCommand_ok _ _ _ _ _ _ _ _ heq]; simp
      · exact absurd heq (by simp)
  · split at heq
    · rw [publishCommand_ok _ _ _ _ _ _ _ _ heq]; simp
    · exact absurd heq (by simp)

theorem turnOff_mqttSome (m : Manager) (h : String → String) (mid : String)
    (ts : Nat) (rec : Except String MqttClient) (ch : Nat)
    (hm : m.mqttClient.isSome = true) :
    (turnOff m h mid ts rec ch).2.1.mqttClient.isSome = true := by
  rw [turnOff]
  split
  · split <;> rename_i heq
    · exact sendDeviceCommand_ok_mqttSome _ _ _ _ _ _ _ _ _ hm heq
    · exact hm
  · exact hm

theorem offLoop_mqttSome (h : String → String) (env : Nat → ToggleEnv) :
    ∀ (k i : Nat) (m : Manager), m.mqttClient.isSome = true →
      (offLoop h env i k m).1.mqttClient.isSome = true := by
  intro k
  induction k with
  | zero => intro i m hm; exact hm
  | succ k ih =>
    intro i m hm
    rw [offLoop]
    exact ih (i + 1) _ (turnOff_mqttSome _ _ _ _ _ _ hm)

theorem disconnectOffs_token (m : Manager) (h : String → String)
    (env : Nat → ToggleEnv) :
    (disconnectOffs m h env).1.token = m.token := by
  rw [disconnectOffs]
  split
  · split
    · exact offLoop_token_eq h env _ _ _
    · rfl
  · rfl

theorem disconnectOffs_mqttSome (m : Manager) (h : String → String)
    (env : Nat → ToggleEnv) (hm : m.mqttClient.isSome = true) :
    (disconnectOffs m h env).1.mqttClient.isSome = true := by
  rw [disconnectOffs]
  split
  · split
    · exact offLoop_mqttSome h env _ _ _ hm
    · exact hm
  · exact hm

/-- C9: for every call to `disconnect()` — over all possible outcomes of
each fallible step (`env` gives each failsafe `turnOff` its reconnect
outcome, `logoutOk` the logout outcome) — the model is a total function
(no exception escapes, mirroring the per-step try/catch nesting in the
source), the shutdown sequence runs to completion regardless of failures:
an off command is attempted for every channel `1..numChannels` when a
device is selected and connected, the MQTT client is disconnected whenever
one exists, the logout request is issued whenever a token exists, and the
final state clears all instance credentials and connection state. -/
theorem C9_disconnect_best_effort (m : Manager) (h : String → String)
    (env : Nat → ToggleEnv) (logoutOk : Bool) :
    ((disconnect m h env logoutOk).1.connected = false ∧
     (disconnect m h env logoutOk).1.device = none ∧
     (disconnect m h env logoutOk).1.token = none ∧
     (disconnect m h env logoutOk).1.key = none ∧
     (disconnect m h env logoutOk).1.userId = none ∧
     (disconnect m h env logoutOk).1.mqttClient = none) ∧
    (∀ d, m.device = some d → m.connected = true →
      ∀ j, 1 ≤ j → j ≤ channelCount d →
        ∃ ok, DisconnectAction.offAttempt j ok ∈ (disconnect m h env logoutOk).2) ∧
    (m.mqttClient.isSome = true →
      DisconnectAction.mqttDisconnectCall ∈ (disconnect m h env logoutOk).2) ∧
    (m.token.isSome = true →
      ∃ b, DisconnectAction.logoutAttempt b ∈ (disconnect m h env logoutOk).2) := by
  refine ⟨⟨rfl, rfl, rfl, rfl, rfl, rfl⟩, ?_, ?_, ?_⟩
  · intro d hd hc j h1 h2
    obtain ⟨ok, hmem⟩ := offLoop_covers h env (channelCount d) 1 m j h1 (by omega)
    refine ⟨ok, ?_⟩
    rw [disconnect]
    refine List.mem_append.mpr (Or.inl (List.mem_append.mpr (Or.inl ?_)))
    rw [disconnectOffs, hd]
    dsimp only
    rw [if_pos hc]
    exact hmem
  · intro hm
    have hs1 := disconnectOffs_mqttSome m h env hm
    rw [disconnect]
    refine List.mem_append.mpr (Or.inl (List.mem_append.mpr (Or.inr ?_)))
    rw [disconnectMqtt]
    obtain ⟨c, hc⟩ := Option.isSome_iff_exists.mp hs1
    rw [hc]
    exact List.mem_singleton.mpr rfl
  · intro hm
    refine ⟨logoutOk, ?_⟩
    rw [disconnect]
    refine List.mem_append.mpr (Or.inr ?_)
    rw [disconnectLogout]
    have htok : (disconnectMqtt (disconnectOffs m h env).1).1.token = m.token := by
      rw [disconnectMqtt]
      split <;> simp [disconnectOffs_token]
    rw [htok.symm] at hm
    obtain ⟨t, ht⟩ := Option.isSome_iff_exists.mp hm
    rw [ht]
    exact List.mem_singleton.mpr rfl

/-- Closed witness for `C9_disconnect_best_effort`: a connected sample
manager where every failsafe off fails (reconnect refused) and logout
fails; the off commands for channels 1 and 2 are still attempted, the MQTT
disconnect and logout still run, and all credentials are cleared. -/
theorem C9_disconnect_best_effort_witness :
    (∃ ok, DisconnectAction.offAttempt 2 ok ∈
        (disconnect { sampleConnected with mqttClient := none } (fun s => s)
          (fun _ => { messageId := "m", timestamp := 0, reconnect := .error "down" })
          false).2) ∧
    (disconnect { sampleConnected with mqttClient := none } (fun s => s)
        (fun _ => { messageId := "m", timestamp := 0, reconnect := .error "down" })
        false).1.token = none := by
  have hfull := C9_disconnect_best_effort
    { sampleConnected with mqttClient := none } (fun s => s)
    (fun _ => { messageId := "m", timestamp := 0, reconnect := .error "down" })
    false
  exact ⟨hfull.2.1 sampleDevice rfl rfl 2 (by decide) (by decide), hfull.1.2.2.1⟩

/-! ## Session cache and login (`_login`)

Process-wide static state (class-level fields of `MerossCloudManager`) and
a sequential model of `_login(email, password)` for a single caller with
no login promise pending (the shared-pending-operation race is modelled
separately below for the concurrency claim).  Times are epoch
milliseconds.  JS `now - lastLoginAt < TTL` and truncated `Nat`
subtraction agree: when `now < lastLoginAt` JS yields a negative number
(`< TTL` holds) and `Nat` yields `0` (`< TTL` holds as well). -/

/-- `MerossCloudManager.sharedAuth`. -/
structure SharedAuth where
  token : String
  key : String
  userId : Option String
  mqttDomain : String
  domain : String
  lastLoginAt : Nat
deriving DecidableEq, Repr

/-- The static fields read and written by `_login` (other than
`loginPromise`). -/
structure CloudStatic where
  sharedAuth : Option SharedAuth
  loginBlockedUntil : Nat
deriving DecidableEq, Repr

def loginTtlMs : Nat := 6 * 60 * 60 * 1000

def loginBlockMs : Nat := 12 * 60 * 60 * 1000

/-- JS truthiness for an optional string field: `undefined`/`null` and the
empty string are falsy. -/
def truthy : Option String → Bool
  | some s => s ≠ ""
  | none => false

/-- Response body of `POST /v1/Auth/signIn`; `userid`/`userId` are the two
alternative field spellings read by `response.userid || response.userId`. -/
structure SignInResponse where
  token : Option String
  key : Option String
  userid : Option String
  userId2 : Option String
  mqttDomain : Option String
  domain : Option String
deriving DecidableEq, Repr

/-- Substring occurrence on character lists (needle, haystack). -/
def occursIn (pat : List Char) : List Char → Bool
  | [] => decide (pat = [])
  | c :: cs => decide (pat <+: c :: cs) || occursIn pat cs

/-- `message.includes(pat)` for the rate-limit signatures. -/
def strIncludes (msg pat : String) : Bool :=
  occursIn pat.toList msg.toList

/-- The rate-limit detection in `_login`'s catch block:
`message.includes('Beyond Login Limit') || message.includes('429') ||
message.includes('request too frequent')`. -/
def rateLimited (msg : String) : Bool :=
  strIncludes msg "Beyond Login Limit" || strIncludes msg "429" ||
    strIncludes msg "request too frequent"

/-- The error thrown when the login block is active:
`Login temporarily blocked due to rate limit. Try again in Ns.` where
`N = max(0, round((blockedUntil - now) / 1000))`; `Math.round` on a
non-negative integer millisecond difference is `(d + 500) / 1000`
(integer division). -/
def blockedMessage (diffMs : Nat) : String :=
  "Login temporarily blocked due to rate limit. Try again in " ++
    toString ((diffMs + 500) / 1000) ++ "s."

/-- Result of a `_login` call: the updated manager on success, the thrown
message otherwise; plus the post static state and how many network sign-in
requests were issued. -/
structure LoginResult where
  outcome : Except String Manager
  post : CloudStatic
  netCalls : Nat
deriving Repr

/-- Copy cached credentials into the instance
(`this.token = cached.token; ...` with the `|| 'mqtt-us-4.meross.com'`
and `|| this.baseUrl` fallbacks). -/
def copyCached (m : Manager) (c : SharedAuth) : Manager :=
  { m with token := some c.token, key := some c.key, userId := c.userId,
           mqttDomain := some (if c.mqttDomain = "" then "mqtt-us-4.meross.com"
                               else c.mqttDomain),
           baseUrl := if c.domain = "" then m.baseUrl else c.domain }

/-- Sequential `_login(email, password)` for one caller with
`loginPromise === null` at entry.  `now` is `Date.now()` at the block and
TTL checks; `now2` is `Date.now()` when the network response is processed
(cache store / block arming).  `net` is the outcome of the
`/v1/Auth/signIn` request, consumed only if the code reaches it. -/
def login (g : CloudStatic) (m : Manager) (now now2 : Nat)
    (net : Except String SignInResponse) : LoginResult :=
  if g.loginBlockedUntil ≠ 0 ∧ now < g.loginBlockedUntil then
    -- thrown before any request; the thrown message still flows through
    -- the catch block, whose signature match can re-arm the block when the
    -- rendered wait seconds happen to contain the substring 429
    { outcome := .error (blockedMessage (g.loginBlockedUntil - now)),
      post := if rateLimited (blockedMessage (g.loginBlockedUntil - now)) then
          { g with loginBlockedUntil := now2 + loginBlockMs }
        else g,
      netCalls := 0 }
  else
    match g.sharedAuth with
    | some c =>
      if now - c.lastLoginAt < loginTtlMs then
        { outcome := .ok (copyCached m c), post := g, netCalls := 0 }
      else
        loginNetwork g m now2 net
    | none => loginNetwork g m now2 net
where
  /-- The login IIFE (network request, response validation, credential
  store) together with `_login`'s catch block. -/
  loginNetwork (g : CloudStatic) (m : Manager) (now2 : Nat)
      (net : Except String SignInResponse) : LoginResult :=
    match net with
    | .error e =>
      { outcome := .error e,
        post := if rateLimited e then { g with loginBlockedUntil := now2 + loginBlockMs }
                else g,
        netCalls := 1 }
    | .ok r =>
      if truthy r.token ∧ truthy r.key then
        let m1 : Manager :=
          { m with token := r.token, key := r.key,
                   userId := if truthy r.userid then r.userid else r.userId2,
                   mqttDomain := some (if truthy r.mqttDomain then
                       (r.mqttDomain.getD "") else "mqtt-us-4.meross.com"),
                   baseUrl := if truthy r.domain then (r.domain.getD "")
                              else m.baseUrl }
        { outcome := .ok m1,
          post :=
            { sharedAuth := some
                { token := r.token.getD "", key := r.key.getD "",
                  userId := m1.userId,
                  mqttDomain := m1.mqttDomain.getD "",
                  domain := m1.baseUrl, lastLoginAt := now2 },
              loginBlockedUntil := 0 },
          netCalls := 1 }
      else
        -- `Invalid login response - missing credentials` matches no
        -- rate-limit signature
        { outcome := .error "Invalid login response - missing credentials",
          post := g, netCalls := 1 }

/-- No cached entry is fresh at time `now` (absent, or TTL elapsed). -/
def cacheExpired (g : CloudStatic) (now : Nat) : Prop :=
  ∀ c, g.sharedAuth = some c → loginTtlMs ≤ now - c.lastLoginAt

/-- C6: a login while the shared cache holds credentials younger than the
6-hour TTL (and no active login block) returns the cached credentials,
copies them into the manager instance (`copyCached`), leaves the static
state untouched, and issues no network call. -/
theorem C6_cached_login_no_network (g : CloudStatic) (m : Manager)
    (now now2 : Nat) (net : Except String SignInResponse) (c : SharedAuth)
    (hb : ¬(g.loginBlockedUntil ≠ 0 ∧ now < g.loginBlockedUntil))
    (hc : g.sharedAuth = some c)
    (hfresh : now - c.lastLoginAt < loginTtlMs) :
    login g m now now2 net =
      { outcome := .ok (copyCached m c), post := g, netCalls := 0 } := by
  rw [login, if_neg hb, hc]
  dsimp only
  rw [if_pos hfresh]

/-- Sample cached credentials for witnesses. -/
def sampleAuth : SharedAuth :=
  { token := "tok", key := "k", userId := some "u",
    mqttDomain := "mqtt-us-4.meross.com",
    domain := "https://iotx-us.meross.com", lastLoginAt := 1000 }

/-- Closed witness for `C6_cached_login_no_network`: cache written at
t=1000 ms, looked up one hour later, no block. -/
theorem C6_cached_login_no_network_witness :
    login { sharedAuth := some sampleAuth, loginBlockedUntil := 0 }
        Manager.init 3601000 3601000 (.error "unused") =
      { outcome := .ok (copyCached Manager.init sampleAuth),
        post := { sharedAuth := some sampleAuth, loginBlockedUntil := 0 },
        netCalls := 0 } :=
  C6_cached_login_no_network _ _ _ _ _ _ (by decide) rfl (by decide)

/-- C4: behaviour of the 12-hour login block.
1. A login failure whose message matches a rate-limit signature (reached
   because no block was active and the cache was not fresh) arms the block:
   `loginBlockedUntil = now2 + 12h`, where `now2` is the time the failure
   is processed.
2. While the block is active (`loginBlockedUntil ≠ 0` and
   `now < loginBlockedUntil`) every login attempt — with or without a
   cache — fails immediately with the `blocked, retry in Ns` message and
   issues no network call.
3. A network login that succeeds (block inactive, cache stale, response
   carrying token and key) clears the block to 0.
4. An attempt after the block deadline (`loginBlockedUntil ≤ now`)
   proceeds normally: with a stale cache and a valid response it succeeds
   with exactly one network call. -/
theorem C4_login_rate_limit_block :
    (∀ (g : CloudStatic) (m : Manager) (now now2 : Nat) (e : String),
      rateLimited e = true →
      ¬(g.loginBlockedUntil ≠ 0 ∧ now < g.loginBlockedUntil) →
      cacheExpired g now →
      login g m now now2 (.error e) =
        { outcome := .error e,
          post := { g with loginBlockedUntil := now2 + loginBlockMs },
          netCalls := 1 }) ∧
    (∀ (g : CloudStatic) (m : Manager) (now now2 : Nat)
        (net : Except String SignInResponse),
      g.loginBlockedUntil ≠ 0 → now < g.loginBlockedUntil →
      (login g m now now2 net).outcome =
          .error (blockedMessage (g.loginBlockedUntil - now)) ∧
        (login g m now now2 net).netCalls = 0) ∧
    (∀ (g : CloudStatic) (m : Manager) (now now2 : Nat) (r : SignInResponse),
      ¬(g.loginBlockedUntil ≠ 0 ∧ now < g.loginBlockedUntil) →
      cacheExpired g now →
      truthy r.token = true → truthy r.key = true →
      (login g m now now2 (.ok r)).post.loginBlockedUntil = 0) ∧
    (∀ (g : CloudStatic) (m : Manager) (now now2 : Nat) (r : SignInResponse),
      g.loginBlockedUntil ≤ now →
      cacheExpired g now →
      truthy r.token = true → truthy r.key = true →
      (∃ m1, (login g m now now2 (.ok r)).outcome = .ok m1) ∧
        (login g m now now2 (.ok r)).netCalls = 1) := by
  have hnet : ∀ (g : CloudStatic) (m : Manager) (now now2 : Nat)
      (net : Except String SignInResponse),
      ¬(g.loginBlockedUntil ≠ 0 ∧ now < g.loginBlockedUntil) →
      cacheExpired g now →
      login g m now now2 net = login.loginNetwork g m now2 net := by
    intro g m now now2 net hb hce
    rw [login, if_neg hb]
    cases hc : g.sharedAuth with
    | none => rfl
    | some c =>
      dsimp only
      rw [if_neg (by have := hce c hc; omega)]
  refine ⟨?_, ?_, ?_, ?_⟩
  · intro g m now now2 e hrl hb hce
    rw [hnet g m now now2 _ hb hce, login.loginNetwork, hrl]
    simp
  · intro g m now now2 net h0 hlt
    rw [login, if_pos ⟨h0, hlt⟩]
    exact ⟨rfl, rfl⟩
  · intro g m now now2 r hb hce ht hk
    rw [hnet g m now now2 _ hb hce, login.loginNetwork]
    rw [if_pos ⟨ht, hk⟩]
  · intro g m now now2 r hle hce ht hk
    have hb : ¬(g.loginBlockedUntil ≠ 0 ∧ now < g.loginBlockedUntil) := by
      omega
    rw [hnet g m now now2 _ hb hce, login.loginNetwork]
    rw [if_pos ⟨ht, hk⟩]
    exact ⟨⟨_, rfl⟩, rfl⟩

/-- A valid sign-in response used by witnesses. -/
def sampleResponse : SignInResponse :=
  { token := some "tok", key := some "k", userid := some "u",
    userId2 := none, mqttDomain := some "mqtt-us-4.meross.com",
    domain := none }

/-- Closed witness for `C4_login_rate_limit_block`, exercising all four
parts at concrete states: (1) a `Beyond Login Limit` failure at t=1000
arms the block until 1000 + 12h; (2) an attempt at t=2000 under a block
until 43201000 fails with the blocked message (12 hours left rounds to
43199 s) and no network call; (3) a successful login clears an expired
block; (4) an attempt 1 ms after the deadline succeeds with one call. -/
theorem C4_login_rate_limit_block_witness :
    login { sharedAuth := none, loginBlockedUntil := 0 } Manager.init 1000 1000
        (.error "Meross API Error 1030: Beyond Login Limit") =
      { outcome := .error "Meross API Error 1030: Beyond Login Limit",
        post := { sharedAuth := none, loginBlockedUntil := 1000 + loginBlockMs },
        netCalls := 1 } ∧
    ((login { sharedAuth := some sampleAuth, loginBlockedUntil := 43201000 }
        Manager.init 2000 2000 (.error "unused")).outcome =
      .error "Login temporarily blocked due to rate limit. Try again in 43199s." ∧
     (login { sharedAuth := some sampleAuth, loginBlockedUntil := 43201000 }
        Manager.init 2000 2000 (.error "unused")).netCalls = 0) ∧
    (login { sharedAuth := none, loginBlockedUntil := 500 } Manager.init 501 501
        (.ok sampleResponse)).post.loginBlockedUntil = 0 ∧
    (login { sharedAuth := none, loginBlockedUntil := 500 } Manager.init 501 501
        (.ok sampleResponse)).netCalls = 1 := by
  obtain ⟨h1, h2, h3, h4⟩ := C4_login_rate_limit_block
  refine ⟨h1 _ Manager.init 1000 1000 _ (by decide) (by decide)
      (fun c hc => by cases hc), ?_, ?_, ?_⟩
  · have := h2 { sharedAuth := some sampleAuth, loginBlockedUntil := 43201000 }
      Manager.init 2000 2000 (.error "unused") (by decide) (by decide)
    exact this
  · exact h3 { sharedAuth := none, loginBlockedUntil := 500 } Manager.init 501 501
      sampleResponse (by decide) (fun c hc => by cases hc) (by decide) (by decide)
  · exact (h4 { sharedAuth := none, loginBlockedUntil := 500 } Manager.init 501 501
      sampleResponse (by decide) (fun c hc => by cases hc) (by decide) (by decide)).2

/-! ## Global HTTP throttle (`_throttleHttpRequest`, `_makeRequest`)

`_makeRequest` chains every request onto the single static promise
`httpQueue`, so the throttle step for request `n+1` runs only after request
`n` has been dispatched (the dispatch itself resolves as soon as the bytes
are written, not when the response arrives).  `_throttleHttpRequest` reads
`now = Date.now()`, computes
`waitMs = max(0, httpMinIntervalMs - (now - httpLastRequestAt))`, sleeps
`waitMs`, then stores the post-sleep `Date.now()` as the new
`httpLastRequestAt`; the stored instant is the dispatch start.  Real
timers can only overshoot, so the post-sleep clock is
`now + waitMs + slack` for some `slack ≥ 0`. -/

def httpMinIntervalMs : Nat := 10000

/-- `Math.max(0, httpMinIntervalMs - (now - httpLastRequestAt))`: for a
monotone clock (`lastAt ≤ now`) truncated `Nat` subtraction is exactly the
`max 0` of the integer difference. -/
def throttleWait (lastAt now : Nat) : Nat :=
  httpMinIntervalMs - (now - lastAt)

/-- Dispatch instants of a queue of requests.  `lastAt` is the current
`httpLastRequestAt`.  Each queued request is described by `(d, s)`: its
throttle step starts `d` ms after the previous dispatch (the promise chain
serializes them, so never earlier), and its sleep overshoots by
`s ≥ 0` ms. -/
def dispatchTimes (lastAt : Nat) : List (Nat × Nat) → List Nat
  | [] => []
  | (d, s) :: rest =>
    let now := lastAt + d
    let t := now + throttleWait lastAt now + s
    t :: dispatchTimes t rest

/-- C5: consecutive dispatch starts of the process-wide throttled HTTP
queue are at least `httpMinIntervalMs = 10000` ms apart, measured from the
previous dispatch start; and the pre-dispatch wait equals
`max(0, minIntervalMs - (now - lastDispatchAt))` (stated over ℤ to show
the `max 0` form literally). -/
theorem C5_throttle_min_gap :
    (∀ (lastAt : Nat) (reqs : List (Nat × Nat)),
      List.Chain' (fun a b => a + httpMinIntervalMs ≤ b)
        (dispatchTimes lastAt reqs)) ∧
    (∀ lastAt now : Nat, lastAt ≤ now →
      (throttleWait lastAt now : Int) =
        max 0 ((httpMinIntervalMs : Int) - ((now : Int) - (lastAt : Int)))) := by
  have hstep : ∀ (lastAt d s : Nat),
      lastAt + httpMinIntervalMs ≤
        lastAt + d + throttleWait lastAt (lastAt + d) + s := by
    intro lastAt d s
    have h10 : httpMinIntervalMs = 10000 := rfl
    rw [throttleWait]
    omega
  refine ⟨?_, ?_⟩
  · intro lastAt reqs
    induction reqs generalizing lastAt with
    | nil => exact List.chain'_nil
    | cons p rest ih =>
      obtain ⟨d, s⟩ := p
      rw [dispatchTimes]
      cases rest with
      | nil => simp [dispatchTimes]
      | cons q rest2 =>
        obtain ⟨d2, s2⟩ := q
        rw [dispatchTimes]
        refine List.Chain'.cons (hstep _ d2 s2) ?_
        have := ih (lastAt + d + throttleWait lastAt (lastAt + d) + s)
        rw [dispatchTimes] at this
        exact this
  · intro lastAt now hle
    rw [throttleWait]
    have h10 : httpMinIntervalMs = 10000 := rfl
    omega

/-- Closed witness for `C5_throttle_min_gap`: three requests — one issued
21 s after the last dispatch (no wait), one immediately afterwards (full
10 s wait), one 4 s later (6 s wait) — dispatch at 21000, 31000 and 41000,
each gap exactly 10 s. -/
theorem C5_throttle_min_gap_witness :
    dispatchTimes 0 [(21000, 0), (0, 0), (4000, 0)] = [21000, 31000, 41000] ∧
    List.Chain' (fun a b => a + httpMinIntervalMs ≤ b) [21000, 31000, 41000] ∧
    (throttleWait 21000 25000 : Int) =
      max 0 ((httpMinIntervalMs : Int) - ((25000 : Int) - (21000 : Int))) := by
  refine ⟨by decide, ?_, (C5_throttle_min_gap.2 21000 25000 (by decide))⟩
  have h := C5_throttle_min_gap.1 0 [(21000, 0), (0, 0), (4000, 0)]
  have heq : dispatchTimes 0 [(21000, 0), (0, 0), (4000, 0)] =
      [21000, 31000, 41000] := by decide
  rw [heq] at h
  exact h

/-! ## `connect(email, password, deviceName)` retry policy

One iteration of `connect` is its `try` block plus the `catch` handler.
The sub-operations are passed in as outcomes: `loginR` is the result of
`this._login(...)` (the manager with credentials populated on success —
on a login failure the instance is unmodified), `devicesR` the result of
`this._getDevices()` (a non-array response already normalized to `[]` by
`_getDevices` itself), `mqttR` the result of `this._connectMqtt()`.  On
any failure the `catch` sets `connected = false`, increments
`reconnectAttempts`, computes
`waitTime = min(reconnectBackoff * 2^(attempts-1), 300000)` with
`reconnectBackoff = 5000`, sleeps and recurses: the error is consumed,
never surfaced.  Crucially `this.reconnectAttempts = 0` runs as soon as
the device is found, before `_connectMqtt` is awaited. -/

/-- `Math.min(this.reconnectBackoff * (2 ** (attempts - 1)), 300000)`. -/
def backoffWait (attempts : Nat) : Nat :=
  min (5000 * 2 ^ (attempts - 1)) 300000

/-- The `Device "<name>" not found. Available devices: ...` message,
enumerating every listed device name (or `none` when the join is empty,
via `deviceNames || 'none'`). -/
def notFoundMessage (deviceName : String) (devices : List Device) : String :=
  let names := String.intercalate ", " (devices.map Device.devName)
  "Device \x22" ++ deviceName ++ "\x22 not found. Available devices: " ++
    (if names = "" then "none" else names)

/-- Result of one `connect` iteration: either the `try` block completed
(`ok`), or the `catch` handler ran and the loop will retry after
`waitMs` — carrying the caught error message, observable only in the log. -/
inductive StepResult where
  | ok (m : Manager)
  | retry (errMsg : String) (m : Manager) (waitMs : Nat)
deriving DecidableEq, Repr

/-- The catch handler of `connect`: `this.connected = false;
this.reconnectAttempts++; waitTime = min(5000 * 2^(attempts-1), 300000)`,
then sleep and retry. -/
def connectFail (msg : String) (mFail : Manager) : StepResult :=
  .retry msg
    { mFail with connected := false,
                 reconnectAttempts := mFail.reconnectAttempts + 1 }
    (backoffWait (mFail.reconnectAttempts + 1))

/-- One iteration of `connect`: login → device list → exact
case-sensitive `devName` match → `connected := true`,
`reconnectAttempts := 0` → MQTT connect; any failure runs the catch
handler. -/
def connectStep (m : Manager) (deviceName : String)
    (loginR : Except String Manager) (devicesR : Except String (List Device))
    (mqttR : Except String MqttClient) : StepResult :=
  match loginR with
  | .error e => connectFail e m
  | .ok mL =>
    match devicesR with
    | .error e => connectFail e mL
    | .ok devices =>
      match devices.find? (fun d => d.devName == deviceName) with
      | none =>
        connectFail (notFoundMessage deviceName devices) { mL with device := none }
      | some d =>
        match mqttR with
        | .error e =>
          connectFail e { mL with device := some d, connected := true,
                                  reconnectAttempts := 0 }
        | .ok c =>
          .ok { mL with device := some d, connected := true,
                        reconnectAttempts := 0, mqttClient := some c }

/-- Outcomes of the sub-operations for the `k`-th connect attempt. -/
structure ConnectEnv where
  loginR : Manager → Except String Manager
  devicesR : Except String (List Device)
  mqttR : Except String MqttClient

/-- The recursive retry loop of `connect`: attempt, and on failure recurse
with the post-catch manager.  `fuel` bounds how many retries we unfold
(the source loop is unbounded); when fuel runs out the last `retry` result
is returned, showing the loop still retrying.  There is no constructor
for a surfaced error: the `catch` swallows every failure. -/
def connectRun (deviceName : String) (envs : Nat → ConnectEnv) :
    Nat → Nat → Manager → StepResult
  | idx, fuel, m =>
    match connectStep m deviceName ((envs idx).loginR m) (envs idx).devicesR
        (envs idx).mqttR, fuel with
    | .ok mOk, _ => .ok mOk
    | .retry msg m2 w, 0 => .retry msg m2 w
    | .retry _ m2 _, fuel + 1 => connectRun deviceName envs (idx + 1) fuel m2

/-- If every attempt fails, the loop keeps retrying for any amount of
fuel: no error is ever surfaced (the result type has no surfaced-error
constructor because the source has no such path, and the loop never
returns `ok` here). -/
theorem connectRun_always_retry (deviceName : String) (envs : Nat → ConnectEnv)
    (hfail : ∀ k (m' : Manager), ∃ msg m2 w,
      connectStep m' deviceName ((envs k).loginR m') (envs k).devicesR
        (envs k).mqttR = .retry msg m2 w) :
    ∀ (fuel idx : Nat) (m : Manager), ∃ msg m2 w,
      connectRun deviceName envs idx fuel m = .retry msg m2 w := by
  intro fuel
  induction fuel with
  | zero =>
    intro idx m
    obtain ⟨msg, m2, w, hs⟩ := hfail idx m
    exact ⟨msg, m2, w, by rw [connectRun.eq_def]; dsimp only; rw [hs]⟩
  | succ fuel ih =>
    intro idx m
    obtain ⟨msg, m2, w, hs⟩ := hfail idx m
    obtain ⟨msg2, m3, w2, hrec⟩ := ih (idx + 1) m2
    exact ⟨msg2, m3, w2, by rw [connectRun.eq_def]; dsimp only; rw [hs]; exact hrec⟩

/-- A device list without the target name, for the C1 scenario. -/
def sampleOther : Device :=
  { uuid := "u2", devName := "Other", deviceType := "mss310",
    channels := some [0, 1] }

/-- A connect environment where login always succeeds without touching the
instance, the device list always comes back as `[sampleOther]`, and MQTT
would succeed — only the name lookup fails. -/
def envNotFound : Nat → ConnectEnv := fun _ =>
  { loginR := fun m' => .ok m', devicesR := .ok [sampleOther],
    mqttR := .ok { connected := true } }

/-- C1 counterexample: the claim says a device-name mismatch makes
`connect` fail with the enumerating error, surfaced immediately and never
retried automatically.  On the code, with a device list `["Other"]` and
target `"Plug"`, running the connect loop for 4 attempts shows the
enumerating error is generated but swallowed by the catch handler each
time: the loop is still retrying, `reconnectAttempts` has grown to 4 (four
automatic retries of the configuration error), and the pending backoff is
40 s — nothing was surfaced to the caller. -/
theorem C1_counterexample_not_found_is_retried :
    connectRun "Plug" envNotFound 0 3 Manager.init =
      .retry (notFoundMessage "Plug" [sampleOther])
        { Manager.init with device := none, connected := false,
                            reconnectAttempts := 4 }
        40000 ∧
    notFoundMessage "Plug" [sampleOther] =
      "Device \x22Plug\x22 not found. Available devices: Other" := by
  exact ⟨by decide, by decide⟩

/-- C1 (amended): when the device list is fetched successfully but no
listed `devName` equals the target exactly (case-sensitively), `connect`
builds the error enumerating all available device names — but its own
catch handler consumes it: the manager is marked disconnected, the attempt
counter is incremented, and the connect is retried after the exponential
backoff; with the mismatch persisting the loop retries forever, so the
configuration error is never surfaced to the caller. -/
theorem C1_device_not_found_enumerates_and_retries :
    (∀ (m : Manager) (deviceName : String) (mL : Manager)
        (devices : List Device) (mqttR : Except String MqttClient),
      devices.find? (fun d => d.devName == deviceName) = none →
      connectStep m deviceName (.ok mL) (.ok devices) mqttR =
        .retry (notFoundMessage deviceName devices)
          { mL with device := none, connected := false,
                    reconnectAttempts := mL.reconnectAttempts + 1 }
          (backoffWait (mL.reconnectAttempts + 1))) ∧
    (∀ (fuel idx : Nat) (m : Manager), ∃ msg m2 w,
      connectRun "Plug" envNotFound idx fuel m = .retry msg m2 w) := by
  constructor
  · intro m deviceName mL devices mqttR hnone
    simp only [connectStep, hnone, connectFail]
  · refine connectRun_always_retry "Plug" envNotFound ?_
    intro k m'
    refine ⟨notFoundMessage "Plug" [sampleOther],
      { m' with device := none, connected := false,
                reconnectAttempts := m'.reconnectAttempts + 1 },
      backoffWait (m'.reconnectAttempts + 1), ?_⟩
    rfl

/-- Closed witness for `C1_device_not_found_enumerates_and_retries`. -/
theorem C1_device_not_found_enumerates_and_retries_witness :
    connectStep Manager.init "Plug" (.ok Manager.init) (.ok [sampleOther])
        (.ok { connected := true }) =
      .retry (notFoundMessage "Plug" [sampleOther])
        { Manager.init with device := none, connected := false,
                            reconnectAttempts := 1 }
        (backoffWait 1) :=
  C1_device_not_found_enumerates_and_retries.1 Manager.init "Plug"
    Manager.init [sampleOther] (.ok { connected := true }) (by decide)

/-- C2 counterexample: the claim says the attempt counter resets to zero
only on a fully successful connect (including MQTT), so from
`reconnectAttempts = 3` a failure at the MQTT step should increment the
counter to 4 and wait `min(5000 * 2^3, 300000) = 40000` ms.  On the code,
the counter is reset to zero as soon as the device is found — before
`_connectMqtt` — so the very same failure leaves the counter at 1 and
waits only 5000 ms. -/
theorem C2_counterexample_reset_before_mqtt :
    connectStep { Manager.init with reconnectAttempts := 3 } "Plug"
        (.ok { Manager.init with reconnectAttempts := 3 })
        (.ok [sampleDevice]) (.error "MQTT connection closed before CONNACK") =
      .retry "MQTT connection closed before CONNACK"
        { Manager.init with device := some sampleDevice, connected := false,
                            reconnectAttempts := 1 }
        5000 ∧
    (5000 : Nat) ≠ backoffWait (3 + 1) := by
  exact ⟨by decide, by decide⟩

/-- C2 (amended): on every failed connect attempt the wait before the next
attempt is `min(5000 * 2^(a-1), 300000)` ms where `a` is the counter value
after the failure, the manager is left disconnected, and the counter
increments by one from its value at the moment of the failure — but that
value has already been reset to zero as soon as the target device is
found, before the MQTT connection is attempted, so a failure at the MQTT
step always restarts the backoff at its 5000 ms base (counter 1)
regardless of the previous attempt count; failures before the device is
found increment the entry counter.  A fully successful attempt (including
MQTT) returns with the counter at zero. -/
theorem C2_backoff_and_reset :
    (∀ (m : Manager) (deviceName : String) (loginR : Except String Manager)
        (devicesR : Except String (List Device))
        (mqttR : Except String MqttClient) (msg : String) (m2 : Manager)
        (w : Nat),
      connectStep m deviceName loginR devicesR mqttR = .retry msg m2 w →
      w = min (5000 * 2 ^ (m2.reconnectAttempts - 1)) 300000 ∧
        m2.connected = false) ∧
    (∀ (m : Manager) (deviceName : String) (e : String)
        (devicesR : Except String (List Device))
        (mqttR : Except String MqttClient),
      connectStep m deviceName (.error e) devicesR mqttR =
        .retry e { m with connected := false,
                          reconnectAttempts := m.reconnectAttempts + 1 }
          (backoffWait (m.reconnectAttempts + 1))) ∧
    (∀ (m : Manager) (deviceName : String) (mL : Manager) (e : String)
        (mqttR : Except String MqttClient),
      connectStep m deviceName (.ok mL) (.error e) mqttR =
        .retry e { mL with connected := false,
                           reconnectAttempts := mL.reconnectAttempts + 1 }
          (backoffWait (mL.reconnectAttempts + 1))) ∧
    (∀ (m : Manager) (deviceName : String) (mL : Manager)
        (devices : List Device) (d : Device) (e : String),
      devices.find? (fun dv => dv.devName == deviceName) = some d →
      connectStep m deviceName (.ok mL) (.ok devices) (.error e) =
        .retry e { mL with device := some d, connected := false,
                           reconnectAttempts := 1 }
          5000) ∧
    (∀ (m : Manager) (deviceName : String) (mL : Manager)
        (devices : List Device) (d : Device) (c : MqttClient),
      devices.find? (fun dv => dv.devName == deviceName) = some d →
      connectStep m deviceName (.ok mL) (.ok devices) (.ok c) =
        .ok { mL with device := some d, connected := true,
                      reconnectAttempts := 0, mqttClient := some c }) := by
  have hfail : ∀ (msg : String) (mFail : Manager) (m2 : Manager) (msg2 : String)
      (w : Nat), connectFail msg mFail = .retry msg2 m2 w →
      w = min (5000 * 2 ^ (m2.reconnectAttempts - 1)) 300000 ∧
        m2.connected = false := by
    intro msg mFail m2 msg2 w hcf
    rw [connectFail] at hcf
    simp only [StepResult.retry.injEq] at hcf
    obtain ⟨-, hm2, hw⟩ := hcf
    subst hm2
    exact ⟨by rw [← hw]; rfl, rfl⟩
  refine ⟨?_, ?_, ?_, ?_, ?_⟩
  · intro m deviceName loginR devicesR mqttR msg m2 w hstep
    rw [connectStep.eq_def] at hstep
    split at hstep
    · exact hfail _ _ _ _ _ hstep
    · split at hstep
      · exact hfail _ _ _ _ _ hstep
      · split at hstep
        · exact hfail _ _ _ _ _ hstep
        · split at hstep
          · exact hfail _ _ _ _ _ hstep
          · exact absurd hstep (by simp)
  · intro m deviceName e devicesR mqttR
    rfl
  · intro m deviceName mL e mqttR
    rfl
  · intro m deviceName mL devices d e hfind
    simp only [connectStep, hfind, connectFail]
    norm_num [backoffWait]
  · intro m deviceName mL devices d c hfind
    simp only [connectStep, hfind]

/-- Closed witness for `C2_backoff_and_reset`: a connect attempt from
`reconnectAttempts = 2` whose device fetch fails waits
`backoffWait 3 = 20000` ms; and that wait satisfies the stated `min`
formula with the post-failure counter 3. -/
theorem C2_backoff_and_reset_witness :
    connectStep { Manager.init with reconnectAttempts := 2 } "Plug"
        (.ok { Manager.init with reconnectAttempts := 2 })
        (.error "Request timeout - Meross cloud not responding")
        (.ok { connected := true }) =
      .retry "Request timeout - Meross cloud not responding"
        { Manager.init with connected := false, reconnectAttempts := 3 }
        20000 ∧
    (20000 : Nat) = min (5000 * 2 ^ (3 - 1)) 300000 := by
  have h := C2_backoff_and_reset.2.2.1 { Manager.init with reconnectAttempts := 2 }
    "Plug" { Manager.init with reconnectAttempts := 2 }
    "Request timeout - Meross cloud not responding" (.ok { connected := true })
  have hw :=
    (C2_backoff_and_reset.1 { Manager.init with reconnectAttempts := 2 } "Plug"
      (.ok { Manager.init with reconnectAttempts := 2 })
      (.error "Request timeout - Meross cloud not responding")
      (.ok { connected := true })
      "Request timeout - Meross cloud not responding"
      { Manager.init with connected := false, reconnectAttempts := 3 }
      (backoffWait 3) h).1
  exact ⟨by rw [h]; rfl, by simp only [backoffWait] at hw ⊢; omega⟩

/-! ## Login de-duplication under concurrency (`loginPromise`)

JavaScript is single-threaded and event-driven: between two `await`s a
code region runs atomically.  `_login` has exactly these atomic regions
(for the claim's scenario — no active block, any cached entry fresh):

* entry up to the first suspension: block check, cache check,
  `loginPromise` check; if a promise is pending, subscribe to it
  (`await MerossCloudManager.loginPromise`); otherwise synchronously
  install a new `loginPromise` and fire the network request inside its
  IIFE (the request counts as issued here), then await it;
* the IIFE continuation when the network response arrives: store
  `sharedAuth` (with the fresh credentials) and clear the block, which
  resolves the promise;
* the owner's resumption after its `await`: set `loginPromise = null` and
  return with the credentials the IIFE wrote into its instance;
* a subscriber's resumption: re-read `sharedAuth` and copy it; if the
  cache were somehow absent it would fall through and start its own
  login (modelled faithfully; unreachable after a successful resolve).

The machine below interleaves two callers A and B plus the network
completion in every possible order (a schedule is an arbitrary event
list; events not enabled are no-ops, so all interleavings are covered). -/

/-- The credentials produced by the (single) successful network login. -/
structure Creds where
  token : String
  key : String
  userId : String
deriving DecidableEq, Repr

/-- Program counter of one `acquire`/`_login` caller. -/
inductive CallerPC where
  | start
  | awaitOwn
  | awaitOther
  | done
deriving DecidableEq, Repr

/-- Shared static state plus both callers. -/
structure AcqConfig where
  cache : Option Creds
  pending : Bool
  resolved : Bool
  netCalls : Nat
  pcA : CallerPC
  pcB : CallerPC
  resA : Option Creds
  resB : Option Creds
deriving DecidableEq, Repr

/-- Scheduler events: a caller's entry region, the network completion,
a caller's resumption. -/
inductive AcqEv where
  | startA
  | startB
  | net
  | resumeA
  | resumeB
deriving DecidableEq, Repr

/-- The entry region of `_login` for one caller (no block, fresh cache
scenario): cache hit returns it; else subscribe to a pending promise, or
create the promise and issue the single network request. -/
def acqStart (c : AcqConfig) (pc : CallerPC) (res : Option Creds) :
    CallerPC × Option Creds × AcqConfig :=
  match pc with
  | .start =>
    match c.cache with
    | some cr => (.done, some cr, c)
    | none =>
      if c.pending then (.awaitOther, res, c)
      else (.awaitOwn, res,
        { c with pending := true, netCalls := c.netCalls + 1 })
  | _ => (pc, res, c)

/-- Resumption of one caller once the shared promise has resolved.  The
owner clears `loginPromise` and returns the credentials its IIFE stored; a
subscriber re-reads the cache (and would start its own login on a miss, as
in the source). -/
def acqResume (netCreds : Creds) (c : AcqConfig) (pc : CallerPC)
    (res : Option Creds) : CallerPC × Option Creds × AcqConfig :=
  match pc with
  | .awaitOwn =>
    if c.resolved then (.done, some netCreds, { c with pending := false })
    else (pc, res, c)
  | .awaitOther =>
    if c.resolved then
      match c.cache with
      | some cr => (.done, some cr, c)
      | none =>
        if c.pending then (.awaitOther, res, c)
        else (.awaitOwn, res,
          { c with pending := true, netCalls := c.netCalls + 1 })
    else (pc, res, c)
  | _ => (pc, res, c)

/-- One scheduler step; events whose task is not ready leave the
configuration unchanged. -/
def acqStep (netCreds : Creds) (c : AcqConfig) : AcqEv → AcqConfig
  | .startA =>
    let (pc, res, c1) := acqStart c c.pcA c.resA
    { c1 with pcA := pc, resA := res }
  | .startB =>
    let (pc, res, c1) := acqStart c c.pcB c.resB
    { c1 with pcB := pc, resB := res }
  | .net =>
    if c.pending ∧ ¬c.resolved then
      { c with cache := some netCreds, resolved := true }
    else c
  | .resumeA =>
    let (pc, res, c1) := acqResume netCreds c c.pcA c.resA
    { c1 with pcA := pc, resA := res }
  | .resumeB =>
    let (pc, res, c1) := acqResume netCreds c c.pcB c.resB
    { c1 with pcB := pc, resB := res }

/-- Initial configuration of the claim's scenario: no cached credentials,
no pending login, nothing resolved, no network calls, both callers about
to enter `_login`. -/
def acqInit : AcqConfig :=
  { cache := none, pending := false, resolved := false, netCalls := 0,
    pcA := .start, pcB := .start, resA := none, resB := none }

def acqRun (netCreds : Creds) (evs : List AcqEv) : AcqConfig :=
  evs.foldl (acqStep netCreds) acqInit

/-- Invariant of every reachable configuration. -/
def AcqInv (netCreds : Creds) (c : AcqConfig) : Prop :=
  (c.netCalls = if c.pending ∨ c.resolved then 1 else 0) ∧
  (c.resolved → c.cache = some netCreds) ∧
  (c.cache ≠ none → c.resolved) ∧
  (c.pcA = .awaitOwn → c.pending) ∧
  (c.pcB = .awaitOwn → c.pending) ∧
  ¬(c.pcA = .awaitOwn ∧ c.pcB = .awaitOwn) ∧
  (c.pcA = .done → c.resA = some netCreds ∧ c.resolved) ∧
  (c.pcB = .done → c.resB = some netCreds ∧ c.resolved)

theorem acqInv_init (netCreds : Creds) : AcqInv netCreds acqInit := by
  refine ⟨rfl, ?_, ?_, ?_, ?_, ?_, ?_, ?_⟩ <;> intro h <;> simp_all [acqInit]

set_option maxHeartbeats 1000000 in
theorem acqInv_step (netCreds : Creds) (c : AcqConfig) (e : AcqEv)
    (hinv : AcqInv netCreds c) : AcqInv netCreds (acqStep netCreds c e) := by
  obtain ⟨cache, pending, resolved, netCalls, pcA, pcB, resA, resB⟩ := c
  unfold AcqInv at hinv ⊢
  obtain ⟨h1, h2, h3, h4, h5, h6, h7, h8⟩ := hinv
  cases e
  case startA =>
    cases pcA <;> cases pending <;> cases resolved <;> cases cache <;>
      simp_all [acqStep, acqStart]
  case startB =>
    cases pcB <;> cases pending <;> cases resolved <;> cases cache <;>
      simp_all [acqStep, acqStart]
  case net =>
    cases pending <;> cases resolved <;>
      simp_all [acqStep]
  case resumeA =>
    cases pcA <;> cases pending <;> cases resolved <;> cases cache <;>
      simp_all [acqStep, acqResume]
  case resumeB =>
    cases pcB <;> cases pending <;> cases resolved <;> cases cache <;>
      simp_all [acqStep, acqResume]

theorem acqInv_run (netCreds : Creds) (evs : List AcqEv) :
    AcqInv netCreds (acqRun netCreds evs) := by
  rw [acqRun]
  induction evs using List.reverseRecOn with
  | nil => exact acqInv_init netCreds
  | append_singleton evs e ih =>
    rw [List.foldl_append, List.foldl_cons, List.foldl_nil]
    exact acqInv_step netCreds _ e ih

/-- C3: for any interleaving of two concurrent `acquire`/`_login` callers
starting with no cached credentials (and no block), at most one network
login request is ever issued; and in every schedule in which both callers
have completed, exactly one network login was issued and both callers hold
the same resulting credentials. -/
theorem C3_single_login_in_flight (netCreds : Creds) (evs : List AcqEv) :
    (acqRun netCreds evs).netCalls ≤ 1 ∧
    ((acqRun netCreds evs).pcA = .done → (acqRun netCreds evs).pcB = .done →
      (acqRun netCreds evs).netCalls = 1 ∧
      (acqRun netCreds evs).resA = some netCreds ∧
      (acqRun netCreds evs).resB = some netCreds) := by
  obtain ⟨h1, h2, h3, h4, h5, h6, h7, h8⟩ := acqInv_run netCreds evs
  constructor
  · rw [h1]
    split <;> omega
  · intro hda hdb
    refine ⟨?_, (h7 hda).1, (h8 hdb).1⟩
    rw [h1]
    simp [(h7 hda).2]

/-- Closed witness for `C3_single_login_in_flight`: the schedule where A
enters first (issuing the request), B enters while it is pending, the
network completes, and both resume: one network call, both callers done
with the same credentials. -/
theorem C3_single_login_in_flight_witness :
    (acqRun ⟨"tok", "k", "u"⟩
        [.startA, .startB, .net, .resumeA, .resumeB]).netCalls = 1 ∧
    (acqRun ⟨"tok", "k", "u"⟩
        [.startA, .startB, .net, .resumeA, .resumeB]).resA = some ⟨"tok", "k", "u"⟩ ∧
    (acqRun ⟨"tok", "k", "u"⟩
        [.startA, .startB, .net, .resumeA, .resumeB]).resB = some ⟨"tok", "k", "u"⟩ :=
  (C3_single_login_in_flight ⟨"tok", "k", "u"⟩
    [.startA, .startB, .net, .resumeA, .resumeB]).2 (by decide) (by decide)

end MerossPlugin
